import Mathlib

/-!
Verification of the Anti-Phishing extension's feature-extraction and scoring pipeline

Shallow embedding of the detection core of the Anti-Phishing Chrome
Extension: the feature extractor, normalizer, classifier adapter and risk
scorer from `src/model.ts`, `src/background.ts` and the popup components,
together with theorems settling the specification claims about them.

JavaScript numbers are modelled as exact rationals extended with the
special values `NaN`, `Infinity` and `-Infinity` (`JSNum`); the arithmetic
the source performs (character counts, integer rounding, division) is
exact over rationals, so only the division-by-zero special values need
explicit modelling.  JavaScript strings are modelled as Lean `String`s
(lists of characters).
-/

/-- A JavaScript number as produced by the feature pipeline: either an
exact rational or one of the IEEE special values that division can
produce. -/
inductive JSNum where
  | num (q : ℚ)
  | nan
  | inf
  | ninf
  deriving DecidableEq, Repr

/-- JavaScript division `a / b`: `0/0 = NaN`, `a/0 = ±Infinity` for
`a ≠ 0`, ordinary division otherwise. -/
def jsDiv (a b : ℚ) : JSNum :=
  if b = 0 then
    if a = 0 then .nan else if 0 < a then .inf else .ninf
  else .num (a / b)

/-- Model of `s.split(re)` for a character-class regex such as `/[.-]/`: split a
string (as a character list) on any delimiter in `delims`, keeping empty
segments, always returning at least one segment (JS `''.split(..) = ['']`). -/
def splitChars (delims : List Char) : List Char → List (List Char)
  | [] => [[]]
  | c :: rest =>
    match splitChars delims rest with
    | [] => [[c]]
    | seg :: segs =>
      if c ∈ delims then [] :: seg :: segs
      else (c :: seg) :: segs

/-- Model of `s.includes(pat)`: substring containment (the empty pattern is
contained in every string, as in JavaScript). -/
def containsSub (pat : List Char) : List Char → Bool
  | [] => pat.isEmpty
  | c :: rest => pat.isPrefixOf (c :: rest) || containsSub pat rest

/-- Fuel-driven helper for `countOcc`; the fuel starts at the haystack
length, which bounds the number of steps, so the scan below is total and
computes by structural recursion. -/
def countOccAux (pat : List Char) : Nat → List Char → Nat
  | 0, _ => 0
  | _, [] => 0
  | fuel + 1, c :: rest =>
    if !pat.isEmpty && pat.isPrefixOf (c :: rest) then
      1 + countOccAux pat fuel ((c :: rest).drop pat.length)
    else
      countOccAux pat fuel rest

/-- Model of `(s.match(/pat/g) || []).length` for a literal pattern: the number of
leftmost, non-overlapping occurrences of `pat` in `s`. -/
def countOcc (pat s : List Char) : Nat := countOccAux pat s.length s

/-- Model of `Math.min(...xs)` over a list of lengths; the source only applies it
to the result of `split`, which is never empty, so the default for `[]`
(JS would give `Infinity`) is unreachable. -/
def minList : List Nat → Nat
  | [] => 0
  | x :: xs => xs.foldl Nat.min x

/-- Model of `Math.max(...xs)` over a list of lengths; same unreachable-empty note
as `minList`. -/
def maxList : List Nat → Nat
  | [] => 0
  | x :: xs => xs.foldl Nat.max x

/-- Model of `s.toLowerCase()` on a character list (ASCII-faithful). -/
def lowerL (s : List Char) : List Char := s.map Char.toLower

/-- Model of `s.trim()`-style whitespace trimming on a character list. -/
def trimWs (s : List Char) : List Char :=
  ((s.dropWhile Char.isWhitespace).reverse.dropWhile Char.isWhitespace).reverse

/-- An optional sign followed by a nonempty digit string (the exponent
body of a JS decimal literal). -/
def signedDigits : List Char → Bool
  | '+' :: rest => !rest.isEmpty && rest.all Char.isDigit
  | '-' :: rest => !rest.isEmpty && rest.all Char.isDigit
  | l => !l.isEmpty && l.all Char.isDigit

/-- An optional `e`/`E` exponent part of a JS decimal literal. -/
def expPart : List Char → Bool
  | [] => true
  | 'e' :: rest => signedDigits rest
  | 'E' :: rest => signedDigits rest
  | _ => false

/-- An unsigned JS decimal literal: `digits [. digits] [exp]` or
`. digits [exp]`. -/
def decimalLit (l : List Char) : Bool :=
  let p := l.span Char.isDigit
  match p.2 with
  | '.' :: rest2 =>
    let q := rest2.span Char.isDigit
    (!p.1.isEmpty || !q.1.isEmpty) && expPart q.2
  | _ => !p.1.isEmpty && expPart p.2

/-- A signed JS decimal literal or `Infinity`. -/
def signedNumLit : List Char → Bool
  | '+' :: rest => rest = "Infinity".data || decimalLit rest
  | '-' :: rest => rest = "Infinity".data || decimalLit rest
  | l => l = "Infinity".data || decimalLit l

/-- Hexadecimal digit. -/
def isHexDig (c : Char) : Bool :=
  c.isDigit || ('a' ≤ c && c ≤ 'f') || ('A' ≤ c && c ≤ 'F')

/-- Model of `!isNaN(Number(s))` for a string `s`: the empty / whitespace-only
string converts to `0` (not NaN), and otherwise `s` must be a JS string
numeric literal (decimal with optional sign and exponent, `Infinity`, or
an unsigned `0x`/`0b`/`0o` integer literal). -/
def jsStrIsNumeric (s : List Char) : Bool :=
  match trimWs s with
  | [] => true
  | '0' :: x :: rest =>
    if x = 'x' || x = 'X' then !rest.isEmpty && rest.all isHexDig
    else if x = 'b' || x = 'B' then !rest.isEmpty && rest.all (fun c => c = '0' || c = '1')
    else if x = 'o' || x = 'O' then !rest.isEmpty && rest.all (fun c => '0' ≤ c && c ≤ '7')
    else signedNumLit ('0' :: x :: rest)
  | t => signedNumLit t

/-- The input to `extractFeatures` (interface `URLFeatures` in
`src/model.ts`): a URL with its hostname, path, and optional page title
and hyperlink list (defaults `''` and `[]` applied by the destructuring
in the source). -/
structure URLFeatures where
  url : String
  hostname : String
  path : String
  title : String := ""
  hyperlinks : List String := []

/-- The fixed phishing keyword list of `extractFeatures`. -/
def phishingKeywords : List String :=
  ["secure", "account", "webscr", "login", "ebayisapi", "signin", "banking", "confirm"]

/-- Embedding of `extractFeatures` from `src/model.ts` (lines 80–154): maps a URL
observation to the ordered 20-slot numeric feature vector.  Each slot is
computed exactly as in the source; the two digit-ratio slots use raw JS
division (which yields NaN when the denominator is zero), while the
hyperlink ratio is guarded by the source's ternary. -/
def extractFeatures (urlData : URLFeatures) : List JSNum :=
  let url := urlData.url
  let hostname := urlData.hostname
  let path := urlData.path
  let title := urlData.title
  let hyperlinks := urlData.hyperlinks
  -- Length-based features
  let length_url := url.length
  let length_hostname := hostname.length
  -- IP-based feature: every dot-separated label parses as a JS number
  let hostLabels := splitChars ['.'] hostname.data
  let ip := if hostLabels.all (fun part => jsStrIsNumeric part) then 1 else 0
  -- Character counting features
  let nb_dots := url.data.count '.'
  let nb_qm := url.data.count '?'
  let nb_eq := url.data.count '='
  let nb_slash := url.data.count '/'
  let nb_www := countOcc "www.".data url.data
  -- Ratio calculations (raw JS division, unguarded in the source)
  let digits_url := url.data.countP (fun c => c.isDigit)
  let ratio_digits_url := jsDiv (digits_url : ℚ) (length_url : ℚ)
  let digits_host := hostname.data.countP (fun c => c.isDigit)
  let ratio_digits_host := jsDiv (digits_host : ℚ) (length_hostname : ℚ)
  -- TLD and domain analysis
  let tld := hostLabels.getLastD []
  let subdomains := hostLabels.take (hostLabels.length - 2)
  let tld_in_subdomain := if subdomains.any (fun sub => lowerL sub == lowerL tld) then 1 else 0
  -- Prefix/Suffix check
  let prefix_suffix := if hostname.data.contains '-' then 1 else 0
  -- Word length analysis
  let host_words := splitChars ['.', '-'] hostname.data
  let shortest_word_host := minList (host_words.map List.length)
  let longest_words_raw := maxList ((splitChars ['/', '?', '=', '&', '.', '-'] url.data).map List.length)
  let longest_word_path := maxList ((splitChars ['/', '?', '=', '&', '.', '-'] path.data).map List.length)
  -- Phishing hints
  let phish_hints : ℕ := phishingKeywords.foldl
    (fun count keyword => count + (if containsSub keyword.data (lowerL url.data) then 1 else 0)) 0
  -- Hyperlink analysis
  let nb_hyperlinks := hyperlinks.length
  let internalLinks := hyperlinks.filter (fun link => containsSub hostname.data link.data)
  let ratio_intHyperlinks : JSNum :=
    if nb_hyperlinks > 0 then .num ((internalLinks.length : ℚ) / (nb_hyperlinks : ℚ)) else .num 0
  -- Title analysis
  let empty_title := if (trimWs title.data).length = 0 then 1 else 0
  let domain_in_title := if containsSub (lowerL hostname.data) (lowerL title.data) then 1 else 0
  [ .num (length_url : ℚ),
    .num (length_hostname : ℚ),
    .num ip,
    .num (nb_dots : ℚ),
    .num (nb_qm : ℚ),
    .num (nb_eq : ℚ),
    .num (nb_slash : ℚ),
    .num (nb_www : ℚ),
    ratio_digits_url,
    ratio_digits_host,
    .num tld_in_subdomain,
    .num prefix_suffix,
    .num (shortest_word_host : ℚ),
    .num (longest_words_raw : ℚ),
    .num (longest_word_path : ℚ),
    .num (phish_hints : ℚ),
    .num (nb_hyperlinks : ℚ),
    ratio_intHyperlinks,
    .num empty_title,
    .num domain_in_title ]


/-- The canonical ordered feature-name list of `getSignificantFeatures`
(`src/model.ts` lines 162–167). -/
def featureNames : List String :=
  ["length_url", "length_hostname", "ip", "nb_dots", "nb_qm", "nb_eq", "nb_slash",
   "nb_www", "ratio_digits_url", "ratio_digits_host", "tld_in_subdomain",
   "prefix_suffix", "shortest_word_host", "longest_words_raw", "longest_word_path",
   "phish_hints", "nb_hyperlinks", "ratio_intHyperlinks", "empty_title", "domain_in_title"]

/-- The significance test of `getSignificantFeatures` (`src/model.ts`
lines 175–184): ratio features above 0.3, the listed binary flags at 1
(`domain_in_title` inverted, at 0), and any remaining count feature
above 0. -/
def sigCond (featureName : String) (value : ℚ) : Bool :=
  ("ratio_".data.isPrefixOf featureName.data && decide (value > 3/10)) ||
  (featureName == "ip" && decide (value = 1)) ||
  (featureName == "tld_in_subdomain" && decide (value = 1)) ||
  (featureName == "prefix_suffix" && decide (value = 1)) ||
  (featureName == "empty_title" && decide (value = 1)) ||
  (featureName == "domain_in_title" && decide (value = 0)) ||
  (decide (value > 0) && !"ratio_".data.isPrefixOf featureName.data &&
    !(["ip", "tld_in_subdomain", "prefix_suffix", "empty_title", "domain_in_title"].contains featureName))

/-- Embedding of `getSignificantFeatures` from `src/model.ts` (lines 161–190): the
insertion-ordered name→value mapping (modelled as an association list) of
the features passing `sigCond`.  The source iterates over `features`
pairing each index with `featureNames[index]`; `zip` realises that
pairing (for inputs longer than 20 slots the source would fault on an
undefined name, a case outside every claim). -/
def getSignificantFeatures (features : List ℚ) : List (String × ℚ) :=
  (featureNames.zip features).filter (fun p => sigCond p.1 p.2)

/-- The opaque pre-trained binary classifier (`tf.LayersModel` in the
source), consumed purely as a function from a normalized 20-slot vector
to a probability. -/
def Model : Type := List ℚ → ℚ

/-- The scaler parameter set loaded from `scaler.json`: positionally
aligned per-feature means and scales. -/
structure Scaler where
  mean : List ℚ
  scale : List ℚ

/-- The per-slot affine map of `scaleFeatures` (`src/model.ts` line 38–40):
`(value - mean[index]) / scale[index]`, by recursion carrying the index.
Out-of-range access (JS `undefined`) is modelled by the `getD` default;
it is unreachable under the 20-slot/20-parameter contract every claim
imposes. -/
def scaleFeaturesAux (mean scale : List ℚ) : Nat → List ℚ → List ℚ
  | _, [] => []
  | i, value :: rest =>
    (value - mean.getD i 0) / scale.getD i 0 :: scaleFeaturesAux mean scale (i + 1) rest

/-- Embedding of `scaleFeatures` from `src/model.ts` (lines 33–41): throws
`'Scaler not loaded'` when the module-level scaler is unset, otherwise
maps the affine normalization over the vector. -/
def scaleFeatures (scaler : Option Scaler) (features : List ℚ) : Except String (List ℚ) :=
  match scaler with
  | none => .error "Scaler not loaded"
  | some sc => .ok (scaleFeaturesAux sc.mean sc.scale 0 features)

/-- The module-level mutable state of `src/model.ts`: the cached model and
scaler (`let model`, `let scaler`), plus a ghost counter of how many
underlying load attempts (`tf.loadLayersModel` calls) have been issued. -/
structure LoaderState where
  model : Option Model
  scaler : Option Scaler
  attempts : Nat

/-- The state at process start: nothing loaded, no attempts. -/
def initialLoaderState : LoaderState := ⟨none, none, 0⟩

/-- One complete run of `loadModel` (`src/model.ts` lines 9–28) with the
outcomes of its two I/O operations injected: if a model is cached it is
returned at once; otherwise a load attempt is issued, and on success the
model cache is assigned *before* the scaler fetch, so a scaler failure
leaves the model cached while the error propagates (the `catch` block
rethrows). -/
def loadModelRun (loadResult : Except String Model) (scalerResult : Except String Scaler)
    (st : LoaderState) : LoaderState × Except String Model :=
  match st.model with
  | some m => (st, .ok m)
  | none =>
    match loadResult with
    | .error e => ({ st with attempts := st.attempts + 1 }, .error e)
    | .ok m =>
      match scalerResult with
      | .error e => ({ st with model := some m, attempts := st.attempts + 1 }, .error e)
      | .ok sc => ({ model := some m, scaler := some sc, attempts := st.attempts + 1 }, .ok m)

/-- The synchronous prefix of a `loadModel` invocation, up to its first
`await`: read the `model` cache; if it is unset, issue the underlying
load (counted in `attempts`) and suspend.  This is the atomic section
relevant to concurrent invocations. -/
def invokeStart (st : LoaderState) : LoaderState × Bool :=
  if st.model.isNone then ({ st with attempts := st.attempts + 1 }, true) else (st, false)

/-- The resumption of a suspended `loadModel` invocation after both
fetches resolve successfully: assign the module-level caches. -/
def finishLoad (m : Model) (sc : Scaler) (st : LoaderState) : LoaderState :=
  { st with model := some m, scaler := some sc }

/-- The body of `predict` after the model cache is known (`src/model.ts`
lines 201–233): re-check the cache, enforce the 20-feature contract with
the source's exact error message, then scale (which faults if the scaler
is unset) and run the classifier. -/
def predictCore (st : LoaderState) (features : List ℚ) : Except String ℚ :=
  match st.model with
  | none => .error "Model failed to load"
  | some m =>
    if features.length ≠ 20 then
      .error ("Expected 20 features, but got " ++ toString features.length)
    else
      match scaleFeatures st.scaler features with
      | .error e => .error e
      | .ok scaledFeatures => .ok (m scaledFeatures)

/-- Embedding of `predict` from `src/model.ts` (lines 195–238): when no model is
cached it first runs `loadModel` (whose error, if any, propagates
through the rethrowing `catch`), then proceeds with `predictCore`. -/
def predictRun (loadResult : Except String Model) (scalerResult : Except String Scaler)
    (st : LoaderState) (features : List ℚ) : LoaderState × Except String ℚ :=
  match st.model with
  | some _ => (st, predictCore st features)
  | none =>
    match loadModelRun loadResult scalerResult st with
    | (st', .error e) => (st', .error e)
    | (st', .ok _) => (st', predictCore st' features)

/-- The scoring fields of a `CheckResult` relevant to the risk-scorer
claims: the clamped risk score, the threat strings and the detection
sources, in insertion order. -/
structure ScoreResult where
  riskScore : ℤ
  threats : List String
  detectionSources : List String
  deriving DecidableEq, Repr

/-- The ML threat string pushed by `checkUrl`:
`` `ML Model detected suspicious patterns (${Math.round(mlScore * 100)}% confidence)` ``. -/
def mlThreatMsg (mlScore : ℚ) : String :=
  "ML Model detected suspicious patterns (" ++ toString (round (mlScore * 100)) ++ "% confidence)"

/-- The risk-score/threat computation of `checkUrl`, parametrized by the
ML-threat threshold (the only difference between the two variants in the
repository): base score `Math.round(mlScore * 100)`; an ML threat entry
and source when `mlScore` exceeds the threshold; `+60`, a threat entry
and a source on a Safe Browsing hit; final clamp `Math.min(100, ·)`. -/
def checkUrlScoreWith (mlThreshold mlScore : ℚ) (isUnsafe : Bool) : ScoreResult :=
  let riskScore0 : ℤ := round (mlScore * 100)
  let afterMl : List String × List String :=
    if mlScore > mlThreshold then ([mlThreatMsg mlScore], ["Machine Learning Model"])
    else ([], [])
  let afterSb : ℤ × List String × List String :=
    if isUnsafe then
      (riskScore0 + 60, afterMl.1 ++ ["Flagged by Google Safe Browsing"],
       afterMl.2 ++ ["Google Safe Browsing"])
    else (riskScore0, afterMl.1, afterMl.2)
  ⟨min 100 afterSb.1, afterSb.2.1, afterSb.2.2⟩

/-- The scoring block of `checkUrl` in `src/background.ts` (lines
250–272), whose ML-threat guard is `mlScore > 0.5`. -/
def checkUrlScoreBackground (mlScore : ℚ) (isUnsafe : Bool) : ScoreResult :=
  checkUrlScoreWith (1/2) mlScore isUnsafe

/-- The scoring block of `checkUrl` in the `src/unnamed/part_004` variant
of `background.ts` (lines 281–295), whose ML-threat guard is
`mlScore > 0.3` ("Lower the ML threshold to be more sensitive"). -/
def checkUrlScorePart004 (mlScore : ℚ) (isUnsafe : Bool) : ScoreResult :=
  checkUrlScoreWith (3/10) mlScore isUnsafe

/-- Embedding of `getRiskLevelText` from `src/components/Popup.tsx` (lines 205–209),
identical in the `src/unnamed/part_003` popup variant (lines 245–249):
the displayed risk tier. -/
def getRiskLevelText (score : ℚ) : String :=
  if score ≥ 75 then "High Risk"
  else if score ≥ 50 then "Medium Risk"
  else "Low Risk"

/-- Embedding of `getRiskLevel` from the `src/unnamed/part_002` popup variant (lines
159–163): an alternative displayed risk tier with 60/30 boundaries. -/
def getRiskLevel (score : ℚ) : String :=
  if score ≥ 60 then "High Risk"
  else if score ≥ 30 then "Medium Risk"
  else "Low Risk"

/-! ## Claim theorems -/

/-- Claim C6 (counterexample): The claim states the displayed risk tier is
High exactly when the risk score is at least 75 and Medium on
`[50, 75)`; but the repository's `getRiskLevel` popup variant
(`src/unnamed/part_002`) already displays "High Risk" at score 60, where
the claim requires "Medium Risk" (as the `Popup.tsx` variant indeed
shows). -/
theorem getRiskLevel_at_60_refutes_tier_claim :
    getRiskLevel 60 = "High Risk" ∧ getRiskLevelText 60 = "Medium Risk" ∧
      ¬ (75 ≤ (60 : ℚ)) := by
  refine ⟨?_, ?_, by norm_num⟩ <;> norm_num [getRiskLevel, getRiskLevelText]

/-- Claim C6 (amended): In `Popup.tsx` and the `part_003` popup variant,
`getRiskLevelText` reports High exactly when `score ≥ 75`, Medium exactly
when `50 ≤ score < 75` and Low otherwise; the `part_002` popup variant's
`getRiskLevel` instead uses the boundaries 60 and 30. -/
theorem riskTier_boundaries (score : ℚ) :
    (getRiskLevelText score = "High Risk" ↔ 75 ≤ score) ∧
    (getRiskLevelText score = "Medium Risk" ↔ 50 ≤ score ∧ score < 75) ∧
    (getRiskLevelText score = "Low Risk" ↔ score < 50) ∧
    (getRiskLevel score = "High Risk" ↔ 60 ≤ score) ∧
    (getRiskLevel score = "Medium Risk" ↔ 30 ≤ score ∧ score < 60) ∧
    (getRiskLevel score = "Low Risk" ↔ score < 30) := by
  unfold getRiskLevelText getRiskLevel
  refine ⟨?_, ?_, ?_, ?_, ?_, ?_⟩ <;> split_ifs with h1 h2 <;> simp_all <;> linarith

/-- Claim C2: For a classifier probability `p ∈ [0,1]` and at most one
reputation contribution of +60 (a Safe Browsing hit), both `checkUrl`
variants compute `riskScore = min(100, round(p·100) + contribution)`,
always an integer in `[0,100]`; in particular `p = 0.5` yields 50 with no
signal and 100 (clamped) with the +60 signal. -/
theorem checkUrl_riskScore_formula (p : ℚ) (u : Bool) (hp0 : 0 ≤ p) (hp1 : p ≤ 1) :
    ((checkUrlScoreBackground p u).riskScore
        = min 100 (round (p * 100) + (if u then 60 else 0)) ∧
      (checkUrlScorePart004 p u).riskScore
        = min 100 (round (p * 100) + (if u then 60 else 0)) ∧
      0 ≤ (checkUrlScoreBackground p u).riskScore ∧
      (checkUrlScoreBackground p u).riskScore ≤ 100 ∧
      0 ≤ (checkUrlScorePart004 p u).riskScore ∧
      (checkUrlScorePart004 p u).riskScore ≤ 100) ∧
    (checkUrlScoreBackground (1/2) false).riskScore = 50 ∧
    (checkUrlScoreBackground (1/2) true).riskScore = 100 ∧
    (checkUrlScorePart004 (1/2) false).riskScore = 50 ∧
    (checkUrlScorePart004 (1/2) true).riskScore = 100 := by
  have hform : ∀ th : ℚ, (checkUrlScoreWith th p u).riskScore
      = min 100 (round (p * 100) + (if u then 60 else 0)) := by
    intro th
    cases u <;> simp [checkUrlScoreWith]
  have hround : 0 ≤ round (p * 100) := by
    rw [round_eq]
    positivity
  have hbase : ∀ th : ℚ,
      0 ≤ (checkUrlScoreWith th p u).riskScore ∧ (checkUrlScoreWith th p u).riskScore ≤ 100 := by
    intro th
    rw [hform th]
    constructor
    · apply le_min (by norm_num)
      have : (0 : ℤ) ≤ if u then 60 else 0 := by cases u <;> norm_num
      omega
    · exact min_le_left _ _
  refine ⟨⟨hform _, hform _, (hbase _).1, (hbase _).2, (hbase _).1, (hbase _).2⟩, ?_, ?_, ?_, ?_⟩ <;>
    norm_num [checkUrlScoreBackground, checkUrlScorePart004, checkUrlScoreWith, round_eq]

/-- Claim C2 (witness): The theorem instantiated at `p = 1/2` with a Safe
Browsing hit: the clamped score is 100. -/
theorem checkUrl_riskScore_formula_witness :
    (checkUrlScoreBackground (1/2) true).riskScore
        = min 100 (round ((1/2 : ℚ) * 100) + (if true then 60 else 0)) ∧
      (checkUrlScoreBackground (1/2) true).riskScore = 100 :=
  ⟨((checkUrl_riskScore_formula (1/2) true (by norm_num) (by norm_num)).1).1,
   ((checkUrl_riskScore_formula (1/2) true (by norm_num) (by norm_num)).2).2.1⟩

/-- Claim C5 (counterexample): At classifier probability 0.4 — above the
claimed 0.3 threshold — the `checkUrl` of `src/background.ts` records no
ML threat and no "Machine Learning Model" detection source, because its
guard is `mlScore > 0.5`. -/
theorem checkUrlBackground_at_point4_refutes_threshold_claim :
    ((2 : ℚ)/5 > 3/10) ∧
    (checkUrlScoreBackground (2/5) false).detectionSources = [] ∧
    (checkUrlScoreBackground (2/5) false).threats = [] := by
  refine ⟨by norm_num, ?_, ?_⟩ <;>
    norm_num [checkUrlScoreBackground, checkUrlScoreWith]

/-- Claim C5 (amended): The ML-threat guard differs between the two
`checkUrl` variants: the `part_004` variant appends the ML threat string
and records "Machine Learning Model" exactly when `p > 0.3`, while the
`src/background.ts` variant does so exactly when `p > 0.5`; below the
respective guard the threat list holds at most the Safe Browsing entry. -/
theorem checkUrl_mlThreat_threshold (p : ℚ) (u : Bool) :
    ("Machine Learning Model" ∈ (checkUrlScorePart004 p u).detectionSources ↔ p > 3/10) ∧
    ("Machine Learning Model" ∈ (checkUrlScoreBackground p u).detectionSources ↔ p > 1/2) ∧
    (p > 3/10 → mlThreatMsg p ∈ (checkUrlScorePart004 p u).threats) ∧
    (p ≤ 3/10 →
      (checkUrlScorePart004 p u).threats
        = if u then ["Flagged by Google Safe Browsing"] else []) ∧
    (p > 1/2 → mlThreatMsg p ∈ (checkUrlScoreBackground p u).threats) ∧
    (p ≤ 1/2 →
      (checkUrlScoreBackground p u).threats
        = if u then ["Flagged by Google Safe Browsing"] else []) := by
  have hpos : ∀ th : ℚ, th < p →
      (checkUrlScoreWith th p u).threats
          = (if u then [mlThreatMsg p, "Flagged by Google Safe Browsing"] else [mlThreatMsg p]) ∧
        (checkUrlScoreWith th p u).detectionSources
          = (if u then ["Machine Learning Model", "Google Safe Browsing"]
             else ["Machine Learning Model"]) := by
    intro th h
    cases u <;> simp [checkUrlScoreWith, if_pos h]
  have hneg : ∀ th : ℚ, ¬ th < p →
      (checkUrlScoreWith th p u).threats
          = (if u then ["Flagged by Google Safe Browsing"] else []) ∧
        (checkUrlScoreWith th p u).detectionSources
          = (if u then ["Google Safe Browsing"] else []) := by
    intro th h
    cases u <;> simp [checkUrlScoreWith, if_neg h]
  unfold checkUrlScorePart004 checkUrlScoreBackground
  rcases le_or_lt p (3/10) with h3 | h3
  · have h5 : p ≤ 1/2 := by linarith
    rw [(hneg _ (not_lt.mpr h3)).1, (hneg _ (not_lt.mpr h3)).2,
        (hneg _ (not_lt.mpr h5)).1, (hneg _ (not_lt.mpr h5)).2]
    refine ⟨?_, ?_, fun h => absurd h (not_lt.mpr h3), fun _ => rfl,
            fun h => absurd h (not_lt.mpr h5), fun _ => rfl⟩ <;>
      cases u <;> simp <;> linarith
  · rcases le_or_lt p (1/2) with h5 | h5
    · rw [(hpos _ h3).1, (hpos _ h3).2, (hneg _ (not_lt.mpr h5)).1, (hneg _ (not_lt.mpr h5)).2]
      refine ⟨?_, ?_, fun _ => ?_, fun h => absurd h3 (not_lt.mpr h),
              fun h => absurd h (not_lt.mpr h5), fun _ => rfl⟩ <;>
        cases u <;> simp [h3] <;> try linarith
    · rw [(hpos _ h3).1, (hpos _ h3).2, (hpos _ h5).1, (hpos _ h5).2]
      refine ⟨?_, ?_, fun _ => ?_, fun h => absurd h3 (not_lt.mpr h), fun _ => ?_,
              fun h => absurd h5 (not_lt.mpr h)⟩ <;>
        cases u <;> simp [h3, h5] <;> try linarith

/-- Claim C5 (witness): At `p = 0.4` the `part_004` variant does append the
ML threat string. -/
theorem checkUrl_mlThreat_threshold_witness :
    mlThreatMsg (2/5) ∈ (checkUrlScorePart004 (2/5) false).threats :=
  (checkUrl_mlThreat_threshold (2/5) false).2.2.1 (by norm_num)

/-- Claim C3: With the model and scaler loaded, `predict` on a vector of
any length other than 20 fails with the invalid-input error message
reporting the expected and actual lengths (`Expected 20 features, but got
…`), leaves the cached state untouched, and returns no probability. -/
theorem predict_wrong_length_fails (loadRes : Except String Model)
    (scalerRes : Except String Scaler) (m : Model) (sc : Scaler) (k : ℕ)
    (features : List ℚ) (h : features.length ≠ 20) :
    predictRun loadRes scalerRes ⟨some m, some sc, k⟩ features
      = (⟨some m, some sc, k⟩,
         .error ("Expected 20 features, but got " ++ toString features.length)) := by
  simp [predictRun, predictCore, h]

/-- Claim C3 (witness): A 3-slot vector is rejected with the message naming
20 and 3. -/
theorem predict_wrong_length_fails_witness :
    predictRun (.error "offline") (.error "offline")
        ⟨some (fun _ => 0), some ⟨[], []⟩, 0⟩ [1, 2, 3]
      = (⟨some (fun _ => 0), some ⟨[], []⟩, 0⟩,
         .error ("Expected 20 features, but got " ++ toString ([1, 2, 3] : List ℚ).length)) :=
  predict_wrong_length_fails (.error "offline") (.error "offline") (fun _ => 0) ⟨[], []⟩ 0
    [1, 2, 3] (by decide)

/-- Claim C10: If the model load succeeds but the scaler fetch fails, the
error propagates while the model cache stays set: every later `loadModel`
returns the cached model at once (regardless of what the fetches would
now return, so the scaler fetch is never retried), and every later
`predict` on a 20-slot vector fails with `'Scaler not loaded'`. -/
theorem loadModel_partial_failure_sticky (m : Model) (e : String)
    (loadRes : Except String Model) (scalerRes : Except String Scaler)
    (features : List ℚ) (h : features.length = 20) :
    loadModelRun (.ok m) (.error e) initialLoaderState = (⟨some m, none, 1⟩, .error e) ∧
    loadModelRun loadRes scalerRes ⟨some m, none, 1⟩ = (⟨some m, none, 1⟩, .ok m) ∧
    predictRun loadRes scalerRes ⟨some m, none, 1⟩ features
      = (⟨some m, none, 1⟩, .error "Scaler not loaded") := by
  refine ⟨rfl, rfl, ?_⟩
  simp [predictRun, predictCore, scaleFeatures, h]

/-- Claim C10 (witness): The stuck state at a concrete 20-slot vector. -/
theorem loadModel_partial_failure_sticky_witness :
    loadModelRun (.ok (fun _ => 0)) (.error "scaler fetch failed") initialLoaderState
        = (⟨some (fun _ => 0), none, 1⟩, .error "scaler fetch failed") ∧
      loadModelRun (.ok (fun _ => 0)) (.ok ⟨[], []⟩) ⟨some (fun _ => 0), none, 1⟩
        = (⟨some (fun _ => 0), none, 1⟩, .ok (fun _ => 0)) ∧
      predictRun (.ok (fun _ => 0)) (.ok ⟨[], []⟩) ⟨some (fun _ => 0), none, 1⟩
          (List.replicate 20 0)
        = (⟨some (fun _ => 0), none, 1⟩, .error "Scaler not loaded") :=
  loadModel_partial_failure_sticky (fun _ => 0) "scaler fetch failed"
    (.ok (fun _ => 0)) (.ok ⟨[], []⟩) (List.replicate 20 0) (by decide)

/-- Claim C9 (counterexample): Two callers that both invoke `loadModel`
before any load has completed each pass the `if (!model)` guard (the
cache is only assigned after the `await`), so each issues its own
underlying load: the attempt counter reaches 2, not the claimed single
attempt. -/
theorem loadModel_concurrent_two_attempts :
    (invokeStart initialLoaderState).2 = true ∧
    (invokeStart initialLoaderState).1.model.isNone = true ∧
    (invokeStart (invokeStart initialLoaderState).1).2 = true ∧
    (invokeStart (invokeStart initialLoaderState).1).1.attempts = 2 := by
  refine ⟨rfl, rfl, rfl, rfl⟩

/-- Claim C9 (amended): `loadModel` is load-once only sequentially: every
caller that runs its synchronous prefix while the model cache is still
unset triggers its own underlying load attempt, whereas any caller
arriving after a load has completed performs no new attempt and reuses
the cache. -/
theorem loadModel_attempt_behaviour (st : LoaderState) (m : Model) (sc : Scaler) :
    (st.model.isNone = true →
      invokeStart st = ({ st with attempts := st.attempts + 1 }, true)) ∧
    invokeStart (finishLoad m sc st) = (finishLoad m sc st, false) := by
  constructor
  · intro h
    simp [invokeStart, h]
  · simp [invokeStart, finishLoad]

/-- Claim C9 (amended, witness): From the initial state the first caller
does attempt a load, and after completion a later caller does not. -/
theorem loadModel_attempt_behaviour_witness :
    (invokeStart initialLoaderState
        = ({ initialLoaderState with attempts := initialLoaderState.attempts + 1 }, true)) ∧
      invokeStart (finishLoad (fun _ => 0) ⟨[], []⟩ initialLoaderState)
        = (finishLoad (fun _ => 0) ⟨[], []⟩ initialLoaderState, false) :=
  ⟨(loadModel_attempt_behaviour initialLoaderState (fun _ => 0) ⟨[], []⟩).1 rfl,
   (loadModel_attempt_behaviour initialLoaderState (fun _ => 0) ⟨[], []⟩).2⟩

/-- The length of the scaled vector equals the input length. -/
lemma scaleFeaturesAux_length (mean scale : List ℚ) :
    ∀ (i : ℕ) (l : List ℚ), (scaleFeaturesAux mean scale i l).length = l.length := by
  intro i l
  induction l generalizing i with
  | nil => rfl
  | cons x xs ih => simp [scaleFeaturesAux, ih]

/-- Slot-wise description of `scaleFeaturesAux`. -/
lemma scaleFeaturesAux_getD (mean scale : List ℚ) :
    ∀ (l : List ℚ) (i j : ℕ), j < l.length →
      (scaleFeaturesAux mean scale i l).getD j 0
        = (l.getD j 0 - mean.getD (i + j) 0) / scale.getD (i + j) 0 := by
  intro l
  induction l with
  | nil => intro i j h; simp at h
  | cons x xs ih =>
    intro i j h
    cases j with
    | zero => simp [scaleFeaturesAux]
    | succ j' =>
      have hj : j' < xs.length := by simpa using h
      have harith : i + (j' + 1) = (i + 1) + j' := by omega
      simp only [scaleFeaturesAux, List.getD_cons_succ]
      rw [ih (i + 1) j' hj, harith]

/-- Claim C7: For a 20-slot vector and loaded parameters with every scale
nonzero, normalization is the slot-wise affine map
`(v[i] - mean[i]) / scale[i]` with no clamping, and it round-trips
exactly: `w[i] * scale[i] + mean[i] = v[i]` for every slot. -/
theorem scaleFeatures_round_trip (v : List ℚ) (sc : Scaler)
    (hv : v.length = 20) (hs : ∀ i, i < 20 → sc.scale.getD i 0 ≠ 0) :
    ∃ w, scaleFeatures (some sc) v = .ok w ∧ w.length = 20 ∧
      ∀ i, i < 20 →
        w.getD i 0 = (v.getD i 0 - sc.mean.getD i 0) / sc.scale.getD i 0 ∧
        w.getD i 0 * sc.scale.getD i 0 + sc.mean.getD i 0 = v.getD i 0 := by
  refine ⟨scaleFeaturesAux sc.mean sc.scale 0 v, rfl, ?_, ?_⟩
  · rw [scaleFeaturesAux_length]
    exact hv
  · intro i hi
    have hlt : i < v.length := by omega
    have hgd := scaleFeaturesAux_getD sc.mean sc.scale v 0 i hlt
    rw [Nat.zero_add] at hgd
    refine ⟨hgd, ?_⟩
    rw [hgd, div_mul_cancel₀ _ (hs i hi), sub_add_cancel]

/-- Claim C7 (witness): Round-trip at a concrete vector and parameter set. -/
theorem scaleFeatures_round_trip_witness :
    ∃ w, scaleFeatures (some ⟨List.replicate 20 2, List.replicate 20 4⟩)
            (List.replicate 20 3) = .ok w ∧ w.length = 20 ∧
      ∀ i, i < 20 →
        w.getD i 0 = ((List.replicate 20 (3 : ℚ)).getD i 0
            - (List.replicate 20 (2 : ℚ)).getD i 0) / (List.replicate 20 (4 : ℚ)).getD i 0 ∧
        w.getD i 0 * (List.replicate 20 (4 : ℚ)).getD i 0
            + (List.replicate 20 (2 : ℚ)).getD i 0 = (List.replicate 20 (3 : ℚ)).getD i 0 :=
  scaleFeatures_round_trip (List.replicate 20 3) ⟨List.replicate 20 2, List.replicate 20 4⟩
    (by decide) (by decide)

/-- Specialisation of `sigCond` to the `domain_in_title` slot: inclusion holds
exactly at value 0 (the inverted polarity). -/
lemma sigCond_domain_in_title (v : ℚ) : sigCond "domain_in_title" v = decide (v = 0) := by
  unfold sigCond
  rw [show ("ratio_".data.isPrefixOf "domain_in_title".data) = false from by decide]
  rw [show (("domain_in_title" : String) == "ip") = false from by decide]
  rw [show (("domain_in_title" : String) == "tld_in_subdomain") = false from by decide]
  rw [show (("domain_in_title" : String) == "prefix_suffix") = false from by decide]
  rw [show (("domain_in_title" : String) == "empty_title") = false from by decide]
  rw [show (("domain_in_title" : String) == "domain_in_title") = true from by decide]
  rw [show (["ip", "tld_in_subdomain", "prefix_suffix", "empty_title",
      "domain_in_title"].contains ("domain_in_title" : String)) = true from by decide]
  simp

/-- Specialisation of `sigCond` to the `ip` slot: inclusion exactly at 1. -/
lemma sigCond_ip (v : ℚ) : sigCond "ip" v = decide (v = 1) := by
  unfold sigCond
  rw [show ("ratio_".data.isPrefixOf "ip".data) = false from by decide]
  rw [show (("ip" : String) == "ip") = true from by decide]
  rw [show (("ip" : String) == "tld_in_subdomain") = false from by decide]
  rw [show (("ip" : String) == "prefix_suffix") = false from by decide]
  rw [show (("ip" : String) == "empty_title") = false from by decide]
  rw [show (("ip" : String) == "domain_in_title") = false from by decide]
  rw [show (["ip", "tld_in_subdomain", "prefix_suffix", "empty_title",
      "domain_in_title"].contains ("ip" : String)) = true from by decide]
  simp

/-- Specialisation of `sigCond` to the `tld_in_subdomain` slot. -/
lemma sigCond_tld_in_subdomain (v : ℚ) :
    sigCond "tld_in_subdomain" v = decide (v = 1) := by
  unfold sigCond
  rw [show ("ratio_".data.isPrefixOf "tld_in_subdomain".data) = false from by decide]
  rw [show (("tld_in_subdomain" : String) == "ip") = false from by decide]
  rw [show (("tld_in_subdomain" : String) == "tld_in_subdomain") = true from by decide]
  rw [show (("tld_in_subdomain" : String) == "prefix_suffix") = false from by decide]
  rw [show (("tld_in_subdomain" : String) == "empty_title") = false from by decide]
  rw [show (("tld_in_subdomain" : String) == "domain_in_title") = false from by decide]
  rw [show (["ip", "tld_in_subdomain", "prefix_suffix", "empty_title",
      "domain_in_title"].contains ("tld_in_subdomain" : String)) = true from by decide]
  simp

/-- Specialisation of `sigCond` to the `prefix_suffix` slot. -/
lemma sigCond_hyphen_flag (v : ℚ) : sigCond "prefix_suffix" v = decide (v = 1) := by
  unfold sigCond
  rw [show ("ratio_".data.isPrefixOf "prefix_suffix".data) = false from by decide]
  rw [show (("prefix_suffix" : String) == "ip") = false from by decide]
  rw [show (("prefix_suffix" : String) == "tld_in_subdomain") = false from by decide]
  rw [show (("prefix_suffix" : String) == "prefix_suffix") = true from by decide]
  rw [show (("prefix_suffix" : String) == "empty_title") = false from by decide]
  rw [show (("prefix_suffix" : String) == "domain_in_title") = false from by decide]
  rw [show (["ip", "tld_in_subdomain", "prefix_suffix", "empty_title",
      "domain_in_title"].contains ("prefix_suffix" : String)) = true from by decide]
  simp

/-- Specialisation of `sigCond` to the `empty_title` slot. -/
lemma sigCond_empty_title (v : ℚ) : sigCond "empty_title" v = decide (v = 1) := by
  unfold sigCond
  rw [show ("ratio_".data.isPrefixOf "empty_title".data) = false from by decide]
  rw [show (("empty_title" : String) == "ip") = false from by decide]
  rw [show (("empty_title" : String) == "tld_in_subdomain") = false from by decide]
  rw [show (("empty_title" : String) == "prefix_suffix") = false from by decide]
  rw [show (("empty_title" : String) == "empty_title") = true from by decide]
  rw [show (("empty_title" : String) == "domain_in_title") = false from by decide]
  rw [show (["ip", "tld_in_subdomain", "prefix_suffix", "empty_title",
      "domain_in_title"].contains ("empty_title" : String)) = true from by decide]
  simp

/-- Claim C8: For every 20-slot feature vector, the significant-features
mapping contains the key `domain_in_title` exactly when slot 20 equals 0
(inverted polarity), and each of the other binary flags (`ip`,
`tld_in_subdomain`, `prefix_suffix`, `empty_title`) exactly when its
value equals 1. -/
theorem getSignificantFeatures_binary_polarity
    (v0 v1 v2 v3 v4 v5 v6 v7 v8 v9 v10 v11 v12 v13 v14 v15 v16 v17 v18 v19 : ℚ) :
    (("domain_in_title" ∈ (getSignificantFeatures
        [v0, v1, v2, v3, v4, v5, v6, v7, v8, v9, v10,
         v11, v12, v13, v14, v15, v16, v17, v18, v19]).map Prod.fst) ↔ v19 = 0) ∧
    (("ip" ∈ (getSignificantFeatures
        [v0, v1, v2, v3, v4, v5, v6, v7, v8, v9, v10,
         v11, v12, v13, v14, v15, v16, v17, v18, v19]).map Prod.fst) ↔ v2 = 1) ∧
    (("tld_in_subdomain" ∈ (getSignificantFeatures
        [v0, v1, v2, v3, v4, v5, v6, v7, v8, v9, v10,
         v11, v12, v13, v14, v15, v16, v17, v18, v19]).map Prod.fst) ↔ v10 = 1) ∧
    (("prefix_suffix" ∈ (getSignificantFeatures
        [v0, v1, v2, v3, v4, v5, v6, v7, v8, v9, v10,
         v11, v12, v13, v14, v15, v16, v17, v18, v19]).map Prod.fst) ↔ v11 = 1) ∧
    (("empty_title" ∈ (getSignificantFeatures
        [v0, v1, v2, v3, v4, v5, v6, v7, v8, v9, v10,
         v11, v12, v13, v14, v15, v16, v17, v18, v19]).map Prod.fst) ↔ v18 = 1) := by
  simp [getSignificantFeatures, featureNames, List.mem_map, List.mem_filter,
    sigCond_domain_in_title, sigCond_ip, sigCond_tld_in_subdomain,
    sigCond_hyphen_flag, sigCond_empty_title]

/-- A nonempty string has nonzero length. -/
lemma strLength_ne_zero (s : String) (h : s ≠ "") : s.length ≠ 0 := by
  intro hl
  apply h
  cases s with
  | mk data =>
    simp only [String.length] at hl
    simp [List.length_eq_zero] at hl
    simp [hl]

/-- A 0/1-valued conditional wrapped in `JSNum.num` is 0 or 1. -/
lemma num_ite_zero_one (b : Prop) [Decidable b] :
    JSNum.num (if b then (1 : ℚ) else 0) = .num 0 ∨
      JSNum.num (if b then (1 : ℚ) else 0) = .num 1 := by
  split_ifs <;> simp

/-- Claim C1 (counterexample): The claim demands every ratio slot be 0
when its denominator is 0, never NaN; but on the empty observation both
`ratio_digits_url` (slot 9) and `ratio_digits_host` (slot 10) are NaN —
the source divides `digits / length` without the guard it applies to the
hyperlink ratio. -/
theorem extractFeatures_empty_url_ratio_nan :
    (extractFeatures ⟨"", "", "", "", []⟩).getD 8 (.num 0) = .nan ∧
    (extractFeatures ⟨"", "", "", "", []⟩).getD 9 (.num 0) = .nan ∧
    (URLFeatures.mk "" "" "" "" []).url.length = 0 ∧
    JSNum.nan ≠ .num 0 := by decide

/-- Claim C1 (amended): `extractFeatures` always returns exactly 20 slots;
every binary slot (`ip`, `tld_in_subdomain`, `prefix_suffix`,
`empty_title`, `domain_in_title`) is 0 or 1; each ratio slot equals its
numerator divided by its denominator and lies in [0,1] whenever the
denominator is nonzero; `ratio_intHyperlinks` is 0 when there are no
hyperlinks; but `ratio_digits_url` / `ratio_digits_host` are NaN when
`url` / `hostname` is empty. -/
theorem extractFeatures_vector_shape (o : URLFeatures) :
    (extractFeatures o).length = 20 ∧
    ((extractFeatures o).getD 2 .nan = .num 0 ∨ (extractFeatures o).getD 2 .nan = .num 1) ∧
    ((extractFeatures o).getD 10 .nan = .num 0 ∨ (extractFeatures o).getD 10 .nan = .num 1) ∧
    ((extractFeatures o).getD 11 .nan = .num 0 ∨ (extractFeatures o).getD 11 .nan = .num 1) ∧
    ((extractFeatures o).getD 18 .nan = .num 0 ∨ (extractFeatures o).getD 18 .nan = .num 1) ∧
    ((extractFeatures o).getD 19 .nan = .num 0 ∨ (extractFeatures o).getD 19 .nan = .num 1) ∧
    (o.url ≠ "" →
      (extractFeatures o).getD 8 .nan
          = .num ((o.url.data.countP (fun c => c.isDigit) : ℚ) / (o.url.length : ℚ)) ∧
        (0 : ℚ) ≤ (o.url.data.countP (fun c => c.isDigit) : ℚ) / (o.url.length : ℚ) ∧
        (o.url.data.countP (fun c => c.isDigit) : ℚ) / (o.url.length : ℚ) ≤ 1) ∧
    (o.url = "" → (extractFeatures o).getD 8 .nan = .nan) ∧
    (o.hostname ≠ "" →
      (extractFeatures o).getD 9 .nan
          = .num ((o.hostname.data.countP (fun c => c.isDigit) : ℚ) / (o.hostname.length : ℚ)) ∧
        (0 : ℚ) ≤ (o.hostname.data.countP (fun c => c.isDigit) : ℚ) / (o.hostname.length : ℚ) ∧
        (o.hostname.data.countP (fun c => c.isDigit) : ℚ) / (o.hostname.length : ℚ) ≤ 1) ∧
    (o.hostname = "" → (extractFeatures o).getD 9 .nan = .nan) ∧
    (o.hyperlinks ≠ [] →
      (extractFeatures o).getD 17 .nan
          = .num (((o.hyperlinks.filter
              (fun link => containsSub o.hostname.data link.data)).length : ℚ)
            / (o.hyperlinks.length : ℚ)) ∧
        (0 : ℚ) ≤ ((o.hyperlinks.filter
              (fun link => containsSub o.hostname.data link.data)).length : ℚ)
            / (o.hyperlinks.length : ℚ) ∧
        ((o.hyperlinks.filter
              (fun link => containsSub o.hostname.data link.data)).length : ℚ)
            / (o.hyperlinks.length : ℚ) ≤ 1) ∧
    (o.hyperlinks = [] → (extractFeatures o).getD 17 .nan = .num 0) := by
  have e2 : (extractFeatures o).getD 2 .nan
      = .num (if (splitChars ['.'] o.hostname.data).all (fun part => jsStrIsNumeric part)
              then (1 : ℚ) else 0) := rfl
  have e10 : (extractFeatures o).getD 10 .nan
      = .num (if (splitChars ['.'] o.hostname.data).take
                  ((splitChars ['.'] o.hostname.data).length - 2) |>.any
                  (fun sub => lowerL sub == lowerL ((splitChars ['.'] o.hostname.data).getLastD []))
              then (1 : ℚ) else 0) := rfl
  have e11 : (extractFeatures o).getD 11 .nan
      = .num (if o.hostname.data.contains '-' then (1 : ℚ) else 0) := rfl
  have e18 : (extractFeatures o).getD 18 .nan
      = .num (if (trimWs o.title.data).length = 0 then (1 : ℚ) else 0) := rfl
  have e19 : (extractFeatures o).getD 19 .nan
      = .num (if containsSub (lowerL o.hostname.data) (lowerL o.title.data)
              then (1 : ℚ) else 0) := rfl
  have e8 : (extractFeatures o).getD 8 .nan
      = jsDiv (o.url.data.countP (fun c => c.isDigit) : ℚ) (o.url.length : ℚ) := rfl
  have e9 : (extractFeatures o).getD 9 .nan
      = jsDiv (o.hostname.data.countP (fun c => c.isDigit) : ℚ) (o.hostname.length : ℚ) := rfl
  have e17 : (extractFeatures o).getD 17 .nan
      = (if o.hyperlinks.length > 0 then
          JSNum.num (((o.hyperlinks.filter
              (fun link => containsSub o.hostname.data link.data)).length : ℚ)
            / (o.hyperlinks.length : ℚ))
         else .num 0) := rfl
  have hratio : ∀ (s : String), s ≠ "" →
      jsDiv (s.data.countP (fun c => c.isDigit) : ℚ) (s.length : ℚ)
          = .num ((s.data.countP (fun c => c.isDigit) : ℚ) / (s.length : ℚ)) ∧
        (0 : ℚ) ≤ (s.data.countP (fun c => c.isDigit) : ℚ) / (s.length : ℚ) ∧
        (s.data.countP (fun c => c.isDigit) : ℚ) / (s.length : ℚ) ≤ 1 := by
    intro s hs
    have hlen : s.length ≠ 0 := strLength_ne_zero s hs
    have hlenq : ((s.length : ℚ)) ≠ 0 := Nat.cast_ne_zero.mpr hlen
    have hpos : (0 : ℚ) < (s.length : ℚ) :=
      Nat.cast_pos.mpr (Nat.pos_of_ne_zero hlen)
    refine ⟨by rw [jsDiv, if_neg hlenq], div_nonneg (Nat.cast_nonneg _) (Nat.cast_nonneg _), ?_⟩
    rw [div_le_one hpos]
    exact_mod_cast List.countP_le_length (fun c : Char => c.isDigit)
  refine ⟨rfl, ?_, ?_, ?_, ?_, ?_, ?_, ?_, ?_, ?_, ?_, ?_⟩
  · rw [e2]; exact num_ite_zero_one _
  · rw [e10]; exact num_ite_zero_one _
  · rw [e11]; exact num_ite_zero_one _
  · rw [e18]; exact num_ite_zero_one _
  · rw [e19]; exact num_ite_zero_one _
  · intro h
    rw [e8]
    exact hratio o.url h
  · intro h
    rw [e8, h]
    decide
  · intro h
    rw [e9]
    exact hratio o.hostname h
  · intro h
    rw [e9, h]
    decide
  · intro h
    have hpos : 0 < o.hyperlinks.length := List.length_pos.mpr h
    have hq : (0 : ℚ) < (o.hyperlinks.length : ℚ) := Nat.cast_pos.mpr hpos
    refine ⟨by rw [e17, if_pos hpos], div_nonneg (Nat.cast_nonneg _) (Nat.cast_nonneg _), ?_⟩
    rw [div_le_one hq]
    exact_mod_cast List.length_filter_le _ _
  · intro h
    rw [e17, h]
    simp

/-- Claim C1 (witness): On the observation `url = "ab1"`,
`hostname = "h0st"`, one internal hyperlink: the digit ratios and the
hyperlink ratio take their quotient values inside [0,1]. -/
theorem extractFeatures_vector_shape_witness :
    (URLFeatures.mk "ab1" "h0st" "p" "t" ["h0st/x"]).url ≠ "" ∧
    ((extractFeatures (URLFeatures.mk "ab1" "h0st" "p" "t" ["h0st/x"])).getD 8 .nan
        = .num (((URLFeatures.mk "ab1" "h0st" "p" "t" ["h0st/x"]).url.data.countP
              (fun c => c.isDigit) : ℚ)
          / ((URLFeatures.mk "ab1" "h0st" "p" "t" ["h0st/x"]).url.length : ℚ)) ∧
      (0 : ℚ) ≤ (((URLFeatures.mk "ab1" "h0st" "p" "t" ["h0st/x"]).url.data.countP
              (fun c => c.isDigit) : ℚ)
          / ((URLFeatures.mk "ab1" "h0st" "p" "t" ["h0st/x"]).url.length : ℚ)) ∧
      (((URLFeatures.mk "ab1" "h0st" "p" "t" ["h0st/x"]).url.data.countP
              (fun c => c.isDigit) : ℚ)
          / ((URLFeatures.mk "ab1" "h0st" "p" "t" ["h0st/x"]).url.length : ℚ)) ≤ 1) :=
  ⟨by decide,
   (extractFeatures_vector_shape (URLFeatures.mk "ab1" "h0st" "p" "t" ["h0st/x"])).2.2.2.2.2.2.1
     (by decide)⟩

/-- Claim C4 (counterexample): On the fully malformed observation (empty
url, hostname, path, title, no hyperlinks) the claim demands every
affected slot degrade to 0; but `ip` (slot 3) is 1, because JavaScript's
`Number('')` is 0 (not NaN) so the empty hostname label counts as
numeric, and `domain_in_title` (slot 20) is 1, because every title
contains the empty hostname as a substring. -/
theorem extractFeatures_empty_observation_nonzero_flags :
    (extractFeatures ⟨"", "", "", "", []⟩).getD 2 (.num 0) = .num 1 ∧
    (extractFeatures ⟨"", "", "", "", []⟩).getD 19 (.num 0) = .num 1 := by decide

/-- Claim C4 (amended): `extractFeatures` is total (never raises) and on
the fully malformed observation every count slot and the guarded
hyperlink ratio degrade to 0 and `empty_title` is 1; but the two digit
ratios are NaN rather than 0, and `ip` and `domain_in_title` are the
nonzero indicator 1. -/
theorem extractFeatures_empty_observation :
    extractFeatures ⟨"", "", "", "", []⟩
      = [.num 0, .num 0, .num 1, .num 0, .num 0, .num 0, .num 0, .num 0, .nan, .nan,
         .num 0, .num 0, .num 0, .num 0, .num 0, .num 0, .num 0, .num 0, .num 1,
         .num 1] := by decide
